import Mathlib

/-!
Verification of the Location Resolver & Geofence Pre-Check module of the
SRM Sweets mobile app (`src/utils/location.js`, the cached variant).

The module is embedded shallowly:
* `AsyncStorage` is modelled by `Store`, a record with one typed slot per
  storage key (`@srm_geofence_settings`, `@srm_geofence_expiry`,
  `@srm_last_location`).  Values are parsed JSON, so the slots hold the
  structures the code writes, `none` standing for an absent key.
* JavaScript numbers are modelled by `ℚ` (coordinates, radii) and
  timestamps by `ℤ` (milliseconds); `Date.now()` is passed explicitly as a
  `now` argument.
* The asynchronous callback `apiValidateFn` is modelled by its outcome, an
  `Except ApiError ApiResult`; the device provider
  (`Geolocation.getCurrentPosition`) by a function from the option object
  to `Except GeoError GeoPosition`.  Each operation additionally reports
  whether / with which options the external collaborator was invoked, so
  that "does not touch the device radio" and "invokes the remote fallback"
  are stated directly.
* `Math`'s trigonometry acts on real numbers, so `calculateDistance` is a
  (noncomputable) function into `ℤ` via `round`; no claim requires
  evaluating it numerically.
-/

/-- A position delivered by the device location provider
(`position.coords`). -/
structure GeoPosition where
  latitude : ℚ
  longitude : ℚ
  accuracy : ℚ
deriving Repr, DecidableEq

/-- The error taxonomy of the provider callback (`error` in the failure
callback of `Geolocation.getCurrentPosition`). -/
inductive GeoError where
  | permissionDenied
  | positionUnavailable
  | timeout
deriving Repr, DecidableEq

/-- The option object passed to `Geolocation.getCurrentPosition`. -/
structure GeoOptions where
  enableHighAccuracy : Bool
  timeout : ℤ
  maximumAge : ℤ
deriving Repr, DecidableEq

/-- The object written to `@srm_last_location`:
`{latitude, longitude, accuracy, timestamp: Date.now()}`. -/
structure CachedLocation where
  latitude : ℚ
  longitude : ℚ
  accuracy : ℚ
  timestamp : ℤ
deriving Repr, DecidableEq

/-- The object written to `@srm_geofence_settings`:
`{officeLat, officeLng, radiusMeters}`. -/
structure GeofenceSettings where
  officeLat : ℚ
  officeLng : ℚ
  radiusMeters : ℚ
deriving Repr, DecidableEq

/-- `{lat, lng}` inside a backend validation response. -/
structure OfficeLocation where
  lat : ℚ
  lng : ℚ
deriving Repr, DecidableEq

/-- A successful response of `POST /api/location/validate`:
`{withinRange, distance, allowedRadius, isConfigured, officeLocation}`.
`officeLocation` is `Option`al because `validateLocationFast` guards on
its truthiness (`if (result.officeLocation)`). -/
structure ApiResult where
  withinRange : Bool
  distance : ℚ
  allowedRadius : ℚ
  isConfigured : Bool
  officeLocation : Option OfficeLocation
deriving Repr, DecidableEq

/-- Failure of the remote fallback (network error, backend unavailable). -/
inductive ApiError where
  | networkError
  | backendError
deriving Repr, DecidableEq

/-- The object `validateLocationFast` resolves with.  A plain API result
carries no `fromCache` property; reading it yields `undefined`, which is
falsy, hence `fromCache := false` when a backend result is passed
through. -/
structure ValidationResult where
  withinRange : Bool
  distance : ℚ
  allowedRadius : ℚ
  isConfigured : Bool
  fromCache : Bool
deriving Repr, DecidableEq

/-- The three `AsyncStorage` slots the module touches, holding parsed
values; `none` models an absent key (`getItem` returned `null`). -/
structure Store where
  geofenceSettings : Option GeofenceSettings
  geofenceExpiry : Option ℤ
  lastLocation : Option CachedLocation
deriving Repr, DecidableEq

/-- A store with no entries. -/
def Store.empty : Store := ⟨none, none, none⟩

/-- `CACHE_DURATION = 60 * 60 * 1000` (1 hour in milliseconds). -/
def CACHE_DURATION : ℤ := 60 * 60 * 1000

/-- JavaScript truthiness of a number: falsy exactly at `0` (and `NaN`,
which the rational model does not represent). -/
def truthyNum (q : ℚ) : Bool := q != 0

/-- `Math.atan2`, case-split exactly as the JS builtin behaves on
non-NaN arguments. -/
noncomputable def jsAtan2 (y x : ℝ) : ℝ :=
  if 0 < x then Real.arctan (y / x)
  else if x < 0 then
    (if 0 ≤ y then Real.arctan (y / x) + Real.pi
     else Real.arctan (y / x) - Real.pi)
  else
    (if 0 < y then Real.pi / 2
     else if y < 0 then -(Real.pi / 2)
     else 0)

/-- `calculateDistance(lat1, lng1, lat2, lng2)` — Haversine great-circle
distance on a sphere of radius `6371e3` metres, `Math.round`ed to the
nearest metre (`Math.round` and Mathlib's `round` both round halves
up). -/
noncomputable def calculateDistance (lat1 lng1 lat2 lng2 : ℚ) : ℤ :=
  let R : ℝ := 6371000
  let phi1 : ℝ := (lat1 : ℝ) * Real.pi / 180
  let phi2 : ℝ := (lat2 : ℝ) * Real.pi / 180
  let dphi : ℝ := ((lat2 : ℝ) - (lat1 : ℝ)) * Real.pi / 180
  let dlam : ℝ := ((lng2 : ℝ) - (lng1 : ℝ)) * Real.pi / 180
  let a : ℝ :=
    Real.sin (dphi / 2) * Real.sin (dphi / 2) +
      Real.cos phi1 * Real.cos phi2 * Real.sin (dlam / 2) * Real.sin (dlam / 2)
  let c : ℝ := 2 * jsAtan2 (Real.sqrt a) (Real.sqrt (1 - a))
  round (R * c)

/-- `cacheGeofenceSettings(settings)`: writes the settings object and
`String(Date.now() + CACHE_DURATION)` to their two keys. -/
def cacheGeofenceSettings (st : Store) (now : ℤ) (settings : GeofenceSettings) : Store :=
  { st with geofenceSettings := some settings, geofenceExpiry := some (now + CACHE_DURATION) }

/-- `getCachedGeofenceSettings()`: absent or past-expiry
(`Date.now() > parseInt(expiry)`) caches read as `null`; otherwise the
stored settings (themselves possibly absent) are returned. -/
def getCachedGeofenceSettings (st : Store) (now : ℤ) : Option GeofenceSettings :=
  match st.geofenceExpiry with
  | none => none
  | some expiry => if now > expiry then none else st.geofenceSettings

/-- `clearLocationCache()`:
`AsyncStorage.multiRemove([GEOFENCE_CACHE_KEY, GEOFENCE_CACHE_EXPIRY, LAST_LOCATION_KEY])`. -/
def clearLocationCache (_st : Store) : Store :=
  { geofenceSettings := none, geofenceExpiry := none, lastLocation := none }

/-- The option object of the single `getCurrentPosition` call in the
cached variant of `getCurrentLocation`:
`{enableHighAccuracy: false, timeout: 10000, maximumAge: 60000}`. -/
def geoOptions : GeoOptions :=
  { enableHighAccuracy := false, timeout := 10000, maximumAge := 60000 }

/-- The freshness threshold of the coordinate fast path:
`2 * 60 * 1000` ms. -/
def FRESHNESS_THRESHOLD : ℤ := 2 * 60 * 1000

/-- Outcome of `getCurrentLocation`: the resolved/rejected value, the
store afterwards, and the option objects of every provider invocation (in
order). -/
structure LocationOutcome where
  outcome : Except GeoError CachedLocation
  store : Store
  providerCalls : List GeoOptions
deriving Repr

/-- The "get fresh location" half of `getCurrentLocation`: one
`Geolocation.getCurrentPosition(…, geoOptions)` call; on success the fix
is timestamped, cached and resolved; on failure any cached location is
resolved as fallback, otherwise the provider error is rejected. -/
def getFreshLocation (st : Store) (now : ℤ)
    (provider : GeoOptions → Except GeoError GeoPosition) : LocationOutcome :=
  match provider geoOptions with
  | Except.ok position =>
      let location : CachedLocation :=
        { latitude := position.latitude, longitude := position.longitude,
          accuracy := position.accuracy, timestamp := now }
      { outcome := Except.ok location,
        store := { st with lastLocation := some location },
        providerCalls := [geoOptions] }
  | Except.error e =>
      match st.lastLocation with
      | some cached =>
          { outcome := Except.ok cached, store := st, providerCalls := [geoOptions] }
      | none =>
          { outcome := Except.error e, store := st, providerCalls := [geoOptions] }

/-- `getCurrentLocation()` (cached variant): resolve the cached location
immediately when its age `Date.now() - cached.timestamp` is under 2
minutes, otherwise fall through to the fresh-fix path. -/
def getCurrentLocation (st : Store) (now : ℤ)
    (provider : GeoOptions → Except GeoError GeoPosition) : LocationOutcome :=
  match st.lastLocation with
  | some cached =>
      if now - cached.timestamp < FRESHNESS_THRESHOLD then
        { outcome := Except.ok cached, store := st, providerCalls := [] }
      else getFreshLocation st now provider
  | none => getFreshLocation st now provider

/-- Reading a backend result as the resolved value of
`validateLocationFast`: the object is returned verbatim, and its missing
`fromCache` property reads as falsy. -/
def apiToValidation (r : ApiResult) : ValidationResult :=
  { withinRange := r.withinRange, distance := r.distance,
    allowedRadius := r.allowedRadius, isConfigured := r.isConfigured,
    fromCache := false }

/-- The permissive default of the `catch` branch:
`{withinRange: true, distance: 0, allowedRadius: 0, isConfigured: false}`
(no `fromCache` property, hence falsy). -/
def permissiveDefault : ValidationResult :=
  { withinRange := true, distance := 0, allowedRadius := 0,
    isConfigured := false, fromCache := false }

/-- Outcome of `validateLocationFast`: the resolved result, the store
afterwards, and whether `apiValidateFn` was invoked. -/
structure FastValidation where
  result : ValidationResult
  store : Store
  apiCalled : Bool
deriving Repr, DecidableEq

/-- `validateLocationFast(latitude, longitude, apiValidateFn)`: local
Haversine check against a truthy cached geofence, else the remote
fallback (caching a returned `officeLocation` with a fresh expiry),
collapsing a fallback failure to the permissive default. -/
noncomputable def validateLocationFast (st : Store) (now : ℤ) (latitude longitude : ℚ)
    (apiValidateFn : Except ApiError ApiResult) : FastValidation :=
  let cachedSettings := getCachedGeofenceSettings st now
  let apiPath : FastValidation :=
    match apiValidateFn with
    | Except.ok result =>
        let st2 : Store :=
          match result.officeLocation with
          | some loc =>
              cacheGeofenceSettings st now
                { officeLat := loc.lat, officeLng := loc.lng,
                  radiusMeters := result.allowedRadius }
          | none => st
        { result := apiToValidation result, store := st2, apiCalled := true }
    | Except.error _ =>
        { result := permissiveDefault, store := st, apiCalled := true }
  match cachedSettings with
  | some cs =>
      if truthyNum cs.officeLat && truthyNum cs.officeLng then
        let distance := calculateDistance latitude longitude cs.officeLat cs.officeLng
        { result := { withinRange := decide ((distance : ℚ) ≤ cs.radiusMeters),
                      distance := (distance : ℚ),
                      allowedRadius := cs.radiusMeters,
                      isConfigured := true, fromCache := true },
          store := st, apiCalled := false }
      else apiPath
  | none => apiPath

/-! ## Theorems -/

/-- C9: after `clearLocationCache`, reading the cached geofence settings,
the geofence expiry marker and the last-known coordinate all return
absent — the single call removes all three persisted entries. -/
theorem clearLocationCache_clears_everything (st : Store) (now : ℤ) :
    getCachedGeofenceSettings (clearLocationCache st) now = none ∧
    (clearLocationCache st).geofenceSettings = none ∧
    (clearLocationCache st).geofenceExpiry = none ∧
    (clearLocationCache st).lastLocation = none := by
  simp [clearLocationCache, getCachedGeofenceSettings]

/-- C3: a cached geofence whose expiry has passed is never used:
`getCachedGeofenceSettings` returns absent and `validateLocationFast`
invokes the supplied remote fallback instead of computing locally. -/
theorem expired_cache_never_used (st : Store) (now expiry : ℤ)
    (hexp : st.geofenceExpiry = some expiry) (hpast : expiry < now)
    (lat lng : ℚ) (fb : Except ApiError ApiResult) :
    getCachedGeofenceSettings st now = none ∧
    (validateLocationFast st now lat lng fb).apiCalled = true := by
  have hnone : getCachedGeofenceSettings st now = none := by
    simp [getCachedGeofenceSettings, hexp, hpast]
  refine ⟨hnone, ?_⟩
  cases fb with
  | ok result =>
      cases hloc : result.officeLocation <;>
        simp [validateLocationFast, hnone, hloc]
  | error e => simp [validateLocationFast, hnone]

/-- Witness for C3 at a concrete expired cache (expiry 1000, now 2000). -/
theorem expired_cache_never_used_witness :
    getCachedGeofenceSettings
      { geofenceSettings := some { officeLat := 13, officeLng := 80, radiusMeters := 100 },
        geofenceExpiry := some 1000, lastLocation := none } 2000 = none ∧
    (validateLocationFast
      { geofenceSettings := some { officeLat := 13, officeLng := 80, radiusMeters := 100 },
        geofenceExpiry := some 1000, lastLocation := none } 2000 1 2
      (Except.error ApiError.networkError)).apiCalled = true :=
  expired_cache_never_used _ 2000 1000 rfl (by decide) 1 2 _

/-- C10: an unexpired cached geofence whose centre latitude or longitude
is `0` is rejected by the truthiness test
`cachedSettings.officeLat && cachedSettings.officeLng`, so the fast local
path is never taken and the remote fallback runs on every call. -/
theorem zero_center_cache_unusable (st : Store) (now : ℤ) (cs : GeofenceSettings)
    (hcs : getCachedGeofenceSettings st now = some cs)
    (hzero : cs.officeLat = 0 ∨ cs.officeLng = 0)
    (lat lng : ℚ) (fb : Except ApiError ApiResult) :
    (validateLocationFast st now lat lng fb).apiCalled = true ∧
    (validateLocationFast st now lat lng fb).result.fromCache = false := by
  have hfalse : (truthyNum cs.officeLat && truthyNum cs.officeLng) = false := by
    rcases hzero with h | h <;> simp [truthyNum, h]
  cases fb with
  | ok result =>
      cases hloc : result.officeLocation <;>
        simp [validateLocationFast, hcs, hfalse, hloc, apiToValidation]
  | error e => simp [validateLocationFast, hcs, hfalse, permissiveDefault]

/-- Witness for C10: an unexpired cache centred on the equator
(`officeLat = 0`) forces the fallback. -/
theorem zero_center_cache_unusable_witness :
    (validateLocationFast
      { geofenceSettings := some { officeLat := 0, officeLng := 80, radiusMeters := 100 },
        geofenceExpiry := some 5000, lastLocation := none } 2000 1 2
      (Except.error ApiError.networkError)).apiCalled = true :=
  (zero_center_cache_unusable _ 2000 { officeLat := 0, officeLng := 80, radiusMeters := 100 }
    (by simp [getCachedGeofenceSettings]) (Or.inl rfl) 1 2 _).1

/-- C1: `validateLocationFast` is total by construction (it returns a
`ValidationResult` for every coordinate, store and fallback behaviour);
when the remote fallback fails and no unexpired, usable geofence cache
exists, the result is the permissive default
`{withinRange: true, distance: 0, allowedRadius: 0, isConfigured: false}`. -/
theorem validateLocationFast_fail_open (st : Store) (now : ℤ) (lat lng : ℚ)
    (e : ApiError)
    (hnousable : ∀ cs, getCachedGeofenceSettings st now = some cs →
      cs.officeLat = 0 ∨ cs.officeLng = 0) :
    (validateLocationFast st now lat lng (Except.error e)).result = permissiveDefault := by
  cases hc : getCachedGeofenceSettings st now with
  | none => simp [validateLocationFast, hc]
  | some cs =>
      have hfalse : (truthyNum cs.officeLat && truthyNum cs.officeLng) = false := by
        rcases hnousable cs hc with h | h <;> simp [truthyNum, h]
      simp [validateLocationFast, hc, hfalse]

/-- Witness for C1: empty store, failing fallback. -/
theorem validateLocationFast_fail_open_witness :
    (validateLocationFast Store.empty 0 1 2 (Except.error ApiError.networkError)).result =
      permissiveDefault :=
  validateLocationFast_fail_open Store.empty 0 1 2 ApiError.networkError
    (fun cs h => by simp [getCachedGeofenceSettings, Store.empty] at h)

/-- C2: a persisted last-known coordinate whose age is strictly below the
2-minute freshness threshold is returned as-is, and the device location
provider is never invoked on that call. -/
theorem fresh_cache_skips_provider (st : Store) (now : ℤ)
    (provider : GeoOptions → Except GeoError GeoPosition) (cached : CachedLocation)
    (hcache : st.lastLocation = some cached)
    (hfresh : now - cached.timestamp < FRESHNESS_THRESHOLD) :
    (getCurrentLocation st now provider).outcome = Except.ok cached ∧
    (getCurrentLocation st now provider).providerCalls = [] := by
  simp [getCurrentLocation, hcache, hfresh]

/-- Witness for C2: a coordinate cached at t=1000 read at t=60000 (59 s
old) is returned with zero provider calls. -/
theorem fresh_cache_skips_provider_witness :
    (getCurrentLocation
      { geofenceSettings := none, geofenceExpiry := none,
        lastLocation := some { latitude := 13, longitude := 80, accuracy := 5, timestamp := 1000 } }
      60000 (fun _ => Except.error GeoError.timeout)).providerCalls = [] :=
  (fresh_cache_skips_provider _ 60000 _
    { latitude := 13, longitude := 80, accuracy := 5, timestamp := 1000 }
    rfl (by decide)).2

/-- C5: `getCurrentLocation` rejects only when the provider attempt has
failed and no cached coordinate exists at all, and the rejection carries
the provider's error; whenever any cached coordinate exists (of any age),
a provider failure resolves to that cached coordinate. -/
theorem location_failure_only_without_cache (st : Store) (now : ℤ)
    (provider : GeoOptions → Except GeoError GeoPosition) :
    (∀ e, (getCurrentLocation st now provider).outcome = Except.error e →
      st.lastLocation = none ∧ provider geoOptions = Except.error e) ∧
    (∀ cached, st.lastLocation = some cached →
      ∀ e, provider geoOptions = Except.error e →
      (getCurrentLocation st now provider).outcome = Except.ok cached) := by
  constructor
  · intro e h
    cases hl : st.lastLocation with
    | none =>
        refine ⟨rfl, ?_⟩
        cases hp : provider geoOptions with
        | ok p => simp [getCurrentLocation, hl, getFreshLocation, hp] at h
        | error e2 =>
            simp [getCurrentLocation, hl, getFreshLocation, hp] at h
            simp [hp, h]
    | some cached =>
        by_cases hf : now - cached.timestamp < FRESHNESS_THRESHOLD
        · simp [getCurrentLocation, hl, hf] at h
        · cases hp : provider geoOptions with
          | ok p => simp [getCurrentLocation, hl, hf, getFreshLocation, hp] at h
          | error e2 => simp [getCurrentLocation, hl, hf, getFreshLocation, hp] at h
  · intro cached hl e hp
    by_cases hf : now - cached.timestamp < FRESHNESS_THRESHOLD
    · simp [getCurrentLocation, hl, hf]
    · simp [getCurrentLocation, hl, hf, getFreshLocation, hp]

/-- Witness for C5: with no cache the provider timeout is surfaced, and
with a (stale) cache the same provider failure resolves to the cached
coordinate. -/
theorem location_failure_only_without_cache_witness :
    (Store.empty.lastLocation = none ∧
      (fun (_ : GeoOptions) => Except.error (ε := GeoError) (α := GeoPosition) GeoError.timeout)
        geoOptions = Except.error GeoError.timeout) ∧
    (getCurrentLocation
      { geofenceSettings := none, geofenceExpiry := none,
        lastLocation := some { latitude := 13, longitude := 80, accuracy := 5, timestamp := 0 } }
      900000 (fun _ => Except.error GeoError.timeout)).outcome =
      Except.ok { latitude := 13, longitude := 80, accuracy := 5, timestamp := 0 } :=
  ⟨(location_failure_only_without_cache Store.empty 0
      (fun _ => Except.error GeoError.timeout)).1 GeoError.timeout rfl,
   (location_failure_only_without_cache _ 900000
      (fun _ => Except.error GeoError.timeout)).2
      { latitude := 13, longitude := 80, accuracy := 5, timestamp := 0 }
      rfl GeoError.timeout rfl⟩

/-- Counterexample to C8 as stated: on a coordinate-cache miss (empty
store), the cached variant of `getCurrentLocation` makes exactly one
provider request, and that request's profile has
`enableHighAccuracy = false` — there is no initial high-accuracy attempt
and no second, lower-accuracy retry. -/
theorem no_high_accuracy_first_attempt :
    (getCurrentLocation Store.empty 0 (fun _ => Except.error GeoError.timeout)).providerCalls =
      [geoOptions] ∧
    geoOptions.enableHighAccuracy = false ∧
    (getCurrentLocation Store.empty 0
      (fun _ => Except.error GeoError.timeout)).providerCalls.length = 1 := by
  refine ⟨?_, rfl, ?_⟩ <;> rfl

/-- C8 amended: on a coordinate-cache miss the cached variant of
`getCurrentLocation` issues exactly one provider request, whose profile
is the low-accuracy network one (`enableHighAccuracy = false`,
10-second timeout, 60-second maximum age); it never retries with a
different profile. -/
theorem single_low_accuracy_request (st : Store) (now : ℤ)
    (provider : GeoOptions → Except GeoError GeoPosition)
    (hmiss : ∀ cached, st.lastLocation = some cached →
      ¬(now - cached.timestamp < FRESHNESS_THRESHOLD)) :
    (getCurrentLocation st now provider).providerCalls = [geoOptions] ∧
    geoOptions = { enableHighAccuracy := false, timeout := 10000, maximumAge := 60000 } := by
  refine ⟨?_, rfl⟩
  cases hl : st.lastLocation with
  | none =>
      cases hp : provider geoOptions <;>
        simp [getCurrentLocation, hl, getFreshLocation, hp]
  | some cached =>
      have hf := hmiss cached hl
      cases hp : provider geoOptions <;>
        simp [getCurrentLocation, hl, hf, getFreshLocation, hp]

/-- Witness for C8 (amended) at the empty store. -/
theorem single_low_accuracy_request_witness :
    (getCurrentLocation Store.empty 0
      (fun _ => Except.error GeoError.timeout)).providerCalls = [geoOptions] :=
  (single_low_accuracy_request Store.empty 0 (fun _ => Except.error GeoError.timeout)
    (fun cached h => by simp [Store.empty] at h)).1

/-- C4: with an unexpired, usable cached geofence (both centre
coordinates truthy), `validateLocationFast` answers from the cache:
`fromCache = true`, `isConfigured = true`, the reported distance is
`calculateDistance` (the Haversine great-circle distance on a sphere of
radius 6 371 000 m, rounded to the nearest metre) from the given position
to the cached centre, `withinRange` holds exactly when that rounded
distance is at most the cached radius, and the remote fallback is not
invoked. -/
theorem fast_path_haversine (st : Store) (now : ℤ) (cs : GeofenceSettings)
    (hcs : getCachedGeofenceSettings st now = some cs)
    (hlat : cs.officeLat ≠ 0) (hlng : cs.officeLng ≠ 0)
    (lat lng : ℚ) (fb : Except ApiError ApiResult) :
    (validateLocationFast st now lat lng fb).result.fromCache = true ∧
    (validateLocationFast st now lat lng fb).result.isConfigured = true ∧
    (validateLocationFast st now lat lng fb).result.distance =
      ((calculateDistance lat lng cs.officeLat cs.officeLng : ℤ) : ℚ) ∧
    (validateLocationFast st now lat lng fb).result.allowedRadius = cs.radiusMeters ∧
    ((validateLocationFast st now lat lng fb).result.withinRange = true ↔
      ((calculateDistance lat lng cs.officeLat cs.officeLng : ℤ) : ℚ) ≤ cs.radiusMeters) ∧
    (validateLocationFast st now lat lng fb).apiCalled = false := by
  have htrue : (truthyNum cs.officeLat && truthyNum cs.officeLng) = true := by
    simp [truthyNum, hlat, hlng]
  simp [validateLocationFast, hcs, htrue]

/-- Witness for C4 at a concrete unexpired cache centred at (13, 80). -/
theorem fast_path_haversine_witness :
    (validateLocationFast
      { geofenceSettings := some { officeLat := 13, officeLng := 80, radiusMeters := 100 },
        geofenceExpiry := some 1000, lastLocation := none } 500 13 80
      (Except.error ApiError.networkError)).result.fromCache = true ∧
    (validateLocationFast
      { geofenceSettings := some { officeLat := 13, officeLng := 80, radiusMeters := 100 },
        geofenceExpiry := some 1000, lastLocation := none } 500 13 80
      (Except.error ApiError.networkError)).apiCalled = false :=
  ⟨(fast_path_haversine
      { geofenceSettings := some { officeLat := 13, officeLng := 80, radiusMeters := 100 },
        geofenceExpiry := some 1000, lastLocation := none } 500
      { officeLat := 13, officeLng := 80, radiusMeters := 100 }
      rfl (by decide) (by decide) 13 80 (Except.error ApiError.networkError)).1,
   (fast_path_haversine
      { geofenceSettings := some { officeLat := 13, officeLng := 80, radiusMeters := 100 },
        geofenceExpiry := some 1000, lastLocation := none } 500
      { officeLat := 13, officeLng := 80, radiusMeters := 100 }
      rfl (by decide) (by decide) 13 80 (Except.error ApiError.networkError)).2.2.2.2.2⟩

/-- Counterexample to C6 as stated: a successful remote fallback response
is returned verbatim, so a backend result with `withinRange = false` and
`isConfigured = false` passes straight through, violating
"isConfigured = false implies withinRange = true". -/
theorem unconfigured_yet_blocking_result :
    (validateLocationFast Store.empty 0 1 2
      (Except.ok { withinRange := false, distance := 5, allowedRadius := 10,
                   isConfigured := false, officeLocation := none })).result.isConfigured = false ∧
    (validateLocationFast Store.empty 0 1 2
      (Except.ok { withinRange := false, distance := 5, allowedRadius := 10,
                   isConfigured := false, officeLocation := none })).result.withinRange = false :=
  ⟨rfl, rfl⟩

/-- C6 amended: the implication `isConfigured = false → withinRange =
true` holds for every result `validateLocationFast` constructs itself
(cache hit and fallback failure); a result of a successful remote
fallback is passed through verbatim, so the implication holds for it only
under the assumption that the backend's successful responses satisfy
it. -/
theorem unconfigured_implies_permissive_amended (st : Store) (now : ℤ) (lat lng : ℚ)
    (fb : Except ApiError ApiResult)
    (hfb : ∀ r, fb = Except.ok r → r.isConfigured = false → r.withinRange = true) :
    (validateLocationFast st now lat lng fb).result.isConfigured = false →
    (validateLocationFast st now lat lng fb).result.withinRange = true := by
  cases hc : getCachedGeofenceSettings st now with
  | some cs =>
      by_cases hb : (truthyNum cs.officeLat && truthyNum cs.officeLng) = true
      · intro h
        simp [validateLocationFast, hc, hb] at h
      · have hb2 : (truthyNum cs.officeLat && truthyNum cs.officeLng) = false := by
          simpa using hb
        cases fb with
        | ok r =>
            intro h
            cases hloc : r.officeLocation <;>
              · simp [validateLocationFast, hc, hb2, hloc, apiToValidation] at h ⊢
                exact hfb r rfl h
        | error e =>
            intro h
            simp [validateLocationFast, hc, hb2, permissiveDefault]
  | none =>
      cases fb with
      | ok r =>
          intro h
          cases hloc : r.officeLocation <;>
            · simp [validateLocationFast, hc, hloc, apiToValidation] at h ⊢
              exact hfb r rfl h
      | error e =>
          intro h
          simp [validateLocationFast, hc, permissiveDefault]

/-- Witness for C6 (amended): failing fallback on the empty store. -/
theorem unconfigured_implies_permissive_amended_witness :
    (validateLocationFast Store.empty 0 1 2
      (Except.error ApiError.networkError)).result.withinRange = true :=
  unconfigured_implies_permissive_amended Store.empty 0 1 2
    (Except.error ApiError.networkError) (fun _ h => nomatch h) rfl

/-- C7: on a cache miss (no unexpired, usable cache), a successful remote
fallback whose response carries an `officeLocation` makes
`validateLocationFast` persist the returned centre and radius with expiry
`now + CACHE_DURATION` (`CACHE_DURATION` being the fixed hour,
3 600 000 ms) and resolve with the backend's result verbatim. -/
theorem api_success_caches_fresh_expiry (st : Store) (now : ℤ) (lat lng : ℚ)
    (result : ApiResult) (loc : OfficeLocation)
    (hnousable : ∀ cs, getCachedGeofenceSettings st now = some cs →
      cs.officeLat = 0 ∨ cs.officeLng = 0)
    (hloc : result.officeLocation = some loc) :
    (validateLocationFast st now lat lng (Except.ok result)).result = apiToValidation result ∧
    (validateLocationFast st now lat lng (Except.ok result)).store.geofenceSettings =
      some { officeLat := loc.lat, officeLng := loc.lng, radiusMeters := result.allowedRadius } ∧
    (validateLocationFast st now lat lng (Except.ok result)).store.geofenceExpiry =
      some (now + CACHE_DURATION) ∧
    CACHE_DURATION = 60 * 60 * 1000 := by
  cases hc : getCachedGeofenceSettings st now with
  | none => simp [validateLocationFast, hc, hloc, cacheGeofenceSettings, CACHE_DURATION]
  | some cs =>
      have hfalse : (truthyNum cs.officeLat && truthyNum cs.officeLng) = false := by
        rcases hnousable cs hc with h | h <;> simp [truthyNum, h]
      simp [validateLocationFast, hc, hfalse, hloc, cacheGeofenceSettings, CACHE_DURATION]

/-- Witness for C7: empty store, a successful response centred at
(13, 80) with radius 100. -/
theorem api_success_caches_fresh_expiry_witness :
    (validateLocationFast Store.empty 0 1 2
      (Except.ok { withinRange := true, distance := 50, allowedRadius := 100,
                   isConfigured := true,
                   officeLocation := some { lat := 13, lng := 80 } })).store.geofenceExpiry =
      some (0 + CACHE_DURATION) :=
  (api_success_caches_fresh_expiry Store.empty 0 1 2
    { withinRange := true, distance := 50, allowedRadius := 100,
      isConfigured := true, officeLocation := some { lat := 13, lng := 80 } }
    { lat := 13, lng := 80 }
    (fun cs h => by simp [getCachedGeofenceSettings, Store.empty] at h) rfl).2.2.1
